import Mathlib

/-!
Shallow embedding of `src/handlers/getSimilarPhotos.js` (photoviewer-api).

The source file contains two successive versions of the Lambda handler
(separated by a document marker).  Both are embedded here:

* `handler1` — the first version (module-level `useMockMode` flag that is
  never reset, a DynamoDB vector-table lookup `getPhotoVector`, an inner
  try/catch around the Qdrant scroll, and bare `return;` statements that
  make the function return `undefined`);
* `handler2` — the second version (per-request `useMockMode = MOCK_MODE`
  reset, Qdrant-scroll-only vector lookup).

External effects (DynamoDB, Qdrant over axios, `Math.random`,
`crypto`-based `keyToId`) are modelled by an explicit environment `Env`
supplying the responses of each outbound call; the handlers additionally
record a trace of the outbound calls they make (`Call`).  JavaScript
numbers that matter to the claims (scores, thresholds) are modelled as
rationals; the JS expression `parseInt(x) || d` is modelled by
`parseLimit` on an abstract parse outcome, and likewise `parseFloat`.

A JavaScript peculiarity that the embedding keeps: the mock-mode scan
block evaluates the identifier `pointId`, which is declared nowhere in
either version; under `'use strict'` the first execution of the `map`
callback therefore throws `ReferenceError: pointId is not defined`,
which is caught only by the outer catch (→ a 500 response).  When the
scan yields zero items the callback never runs, so no error is raised.
-/

namespace PhotoViewer

/-- Payload attached to a similarity hit: the photo attributes as stored
(`payload` of a Qdrant point or a DynamoDB item).  Any attribute may be
absent. -/
structure Payload where
  key : Option String
  year : Option String
  event : Option String
  day : Option String
  team : Option String
  misc : Option String
deriving DecidableEq, Repr

/-- Payload with every attribute absent: the JS default `hit.payload || {}`. -/
def emptyPayload : Payload := ⟨none, none, none, none, none, none⟩

/-- Raw similarity hit as produced by the Qdrant search or by the mock
fallback mapping: numeric point id, optional score, optional payload. -/
structure Hit where
  id : Nat
  score : Option ℚ
  payload : Option Payload
deriving DecidableEq, Repr

/-- Photo record in the DynamoDB item store (`TABLE_NAME`).  The table key
attribute `Key` is always present; `Team` is the attribute the fallback
scan filters on; the descriptive attributes may be absent. -/
structure PhotoItem where
  key : String
  team : String
  year : Option String
  event : Option String
  day : Option String
  misc : Option String
deriving DecidableEq, Repr

/-- View a stored photo record as a hit payload (`payload: item` in the
mock mapping). -/
def toPayload (it : PhotoItem) : Payload :=
  ⟨some it.key, it.year, it.event, it.day, some it.team, it.misc⟩

/-- Formatted public photo shape pushed onto `similarPhotos`. -/
structure Formatted where
  id : String
  year : String
  event : String
  day : String
  team : String
  misc : String
  thumbnailUrl : String
  hiResUrl : String
  similarity : ℚ
deriving DecidableEq, Repr

/-- Response body: either a JSON message object, the 500 body
`\x7bmessage: 'Internal server error', error: e\x7d`, or the JSON array of
formatted hits. -/
inductive Body
  | msg (m : String)
  | internalError (e : String)
  | photos (l : List Formatted)
deriving DecidableEq, Repr

/-- HTTP response as returned by the handler. -/
structure Response where
  statusCode : Nat
  body : Body
deriving DecidableEq, Repr

/-- Outcome of `parseInt(params.limit)` before the `|| 20` default:
parameter absent (`parseInt(undefined)` is `NaN`), present but not a
number (`NaN`), or a parsed integer. -/
inductive RawNum
  | absent
  | unparsable
  | val (n : Int)
deriving DecidableEq, Repr

/-- Outcome of `parseFloat(params.threshold)` before the `|| 0.75` default. -/
inductive RawQ
  | absent
  | unparsable
  | val (q : ℚ)
deriving DecidableEq, Repr

/-- The JS expression `parseInt(params.limit) || 20`: `NaN` and `0` are
falsy, so both give the default 20; any other integer (negative included)
passes through. -/
def parseLimit : RawNum → Int
  | .absent => 20
  | .unparsable => 20
  | .val n => if n = 0 then 20 else n

/-- The JS expression `parseFloat(params.threshold) || 0.75`. -/
def parseThreshold : RawQ → ℚ
  | .absent => 3 / 4
  | .unparsable => 3 / 4
  | .val q => if q = 0 then 3 / 4 else q

/-- Query-string parameters of a request. -/
structure Query where
  id : Option String
  limit : RawNum
  threshold : RawQ
deriving DecidableEq, Repr

/-- Result of the Qdrant health check `GET /collections`: a thrown axios
error, or the list of collection names in the response (an absent or
malformed body is the empty list, via `data?.result?.collections || []`). -/
inductive HealthResult
  | connError
  | collections (names : List String)
deriving DecidableEq, Repr

/-- One point returned by the Qdrant scroll endpoint. -/
structure ScrollPoint where
  id : Nat
  vector : Option (List ℚ)
deriving DecidableEq, Repr

/-- Result of the Qdrant scroll call: a thrown axios error, or the points
list (an absent/malformed body behaves as an empty list in both handler
versions). -/
inductive ScrollResult
  | err
  | ok (points : List ScrollPoint)
deriving DecidableEq, Repr

/-- Result of the Qdrant nearest-neighbour search: a thrown axios error, a
response whose `data.status` is not `'ok'`, or a good response carrying
`result || []`. -/
inductive SearchResult
  | throwErr
  | respBad
  | respOk (hits : List Hit)
deriving DecidableEq, Repr

/-- Trace entry: one outbound call made by the handler. -/
inductive Call
  | getItem (key : String)
  | getVector (key : String)
  | health
  | scroll (key : String)
  | search (vector : List ℚ) (lim : Int) (threshold : ℚ)
  | scan (team : String) (lim : Int)
deriving DecidableEq, Repr

/-- Environment: the behaviour of every external collaborator during one
invocation, plus the deterministic helpers the handler closes over. -/
structure Env where
  store : List PhotoItem
  vectorOf : String → Option (List ℚ)
  health : HealthResult
  collectionName : String
  scroll : ScrollResult
  searchQ : List ℚ → Int → ℚ → SearchResult
  rand : Nat → ℚ
  keyToId : String → Nat
  s3Base : String

/-- The DynamoDB `GetCommand` on `TABLE_NAME` by key (`getPhotoItem`).
`getPhotoItem` catches its own errors and returns null, so the model
returns an `Option`. -/
def lookupItem (store : List PhotoItem) (key : String) : Option PhotoItem :=
  store.find? (fun it => it.key == key)

/-- The DynamoDB `ScanCommand` with `FilterExpression '#team = :team'` and
`Limit: lim`: DynamoDB applies `Limit` to the number of records examined
before the filter, so the model takes a prefix of length `lim` and then
filters it on the `Team` attribute. -/
def scanTeam (store : List PhotoItem) (team : String) (lim : Int) : List PhotoItem :=
  (store.take lim.toNat).filter (fun it => it.team == team)

/-- The working fallback mapping over the scanned items (the variant using
`keyToId`, found in the catch-driven fallback blocks):
`id: keyToId(item.Key) !== keyToId(photoId) ? keyToId(item.Key) : keyToId(photoId) + 1`,
`score: Math.random() * 0.5 + 0.5`, `payload: item`.  The index threads the
successive values drawn from `Math.random()`. -/
def mockHitsFrom (ktid : String → Nat) (rand : Nat → ℚ) (pid : String) :
    Nat → List PhotoItem → List Hit
  | _, [] => []
  | i, it :: rest =>
    ⟨if ktid it.key ≠ ktid pid then ktid it.key else ktid pid + 1,
     some (rand i * (1 / 2) + 1 / 2),
     some (toPayload it)⟩ :: mockHitsFrom ktid rand pid (i + 1) rest

/-- Fallback hit list starting from the first random draw. -/
def mockHits (ktid : String → Nat) (rand : Nat → ℚ) (pid : String)
    (items : List PhotoItem) : List Hit :=
  mockHitsFrom ktid rand pid 0 items

/-- Resolved key of a hit: `(hit.payload || \x7b\x7d).Key`, with `undefined`
read as the empty string (both are falsy in the filter test). -/
def hitKey (h : Hit) : String :=
  ((h.payload.getD emptyPayload).key).getD ""

/-- The filter test of the format loop: skip when
`!key || key === photoId`. -/
def acceptHit (pid : String) (h : Hit) : Bool :=
  !(hitKey h == "" || hitKey h == pid)

/-- The formatter body pushed onto `similarPhotos` for an accepted hit. -/
def formatHit (s3 : String) (h : Hit) : Formatted :=
  ⟨hitKey h,
   ((h.payload.getD emptyPayload).year).getD "",
   ((h.payload.getD emptyPayload).event).getD "",
   ((h.payload.getD emptyPayload).day).getD "",
   ((h.payload.getD emptyPayload).team).getD "",
   ((h.payload.getD emptyPayload).misc).getD "",
   s3 ++ "/thumbNail/" ++ hitKey h,
   s3 ++ "/hiRes/" ++ hitKey h,
   h.score.getD 0⟩

/-- The filter/format loop over `searchResults`, carrying the current
length of `similarPhotos`: push accepted hits, and break as soon as
`similarPhotos.length >= limit` after a push. -/
def filterFormatAux (s3 pid : String) (limit : Int) : Nat → List Hit → List Formatted
  | _, [] => []
  | count, h :: rest =>
    if acceptHit pid h then
      if limit ≤ (count : Int) + 1 then [formatHit s3 h]
      else formatHit s3 h :: filterFormatAux s3 pid limit (count + 1) rest
    else filterFormatAux s3 pid limit count rest

/-- The filter/format stage, started with an empty `similarPhotos`. -/
def filterFormat (s3 pid : String) (limit : Int) (hits : List Hit) : List Formatted :=
  filterFormatAux s3 pid limit 0 hits

/-- The 400 response for a missing `id` parameter. -/
def resp400 : Response := ⟨400, .msg "Missing required parameter: id"⟩

/-- The 404 response when the photo is not in the item store. -/
def resp404 : Response := ⟨404, .msg "Photo not found"⟩

/-- The 500 response produced by the outer catch. -/
def resp500 (e : String) : Response := ⟨500, .internalError e⟩

/-- Message of the `ReferenceError` raised by the undeclared `pointId` in
the mock-mode scan block. -/
def refErrPointId : String := "pointId is not defined"

/-- Result of one handler invocation: the value returned by the async
function (`none` models the bare `return;` statements, i.e. the function
resolving to `undefined`), the value of the module-level `useMockMode`
variable after the invocation, and the trace of outbound calls. -/
structure HandlerOut where
  resp : Option Response
  mode : Bool
  calls : List Call
deriving DecidableEq, Repr

/-- The mock-mode block (both versions): scan the item store for records
sharing the query photo's `Team`, with `Limit: limit + 1`, then map —
where the mapping callback evaluates the undeclared `pointId`.  With at
least one scanned item the callback throws a `ReferenceError`, which only
the outer catch sees (→ 500, with `useMockMode` already set true); with
zero items the map never invokes the callback, `searchResults` becomes
`[]`, and the filter stage yields a 200 with an empty array. -/
def mockBranch (env : Env) (pid : String) (item : PhotoItem) (limit : Int)
    (pre : List Call) : HandlerOut :=
  match scanTeam env.store item.team (limit + 1) with
  | [] =>
    ⟨some ⟨200, .photos (filterFormat env.s3Base pid limit [])⟩, true,
     pre ++ [.scan item.team (limit + 1)]⟩
  | _ :: _ =>
    ⟨some (resp500 refErrPointId), true, pre ++ [.scan item.team (limit + 1)]⟩

/-- The catch-driven fallback hit list: scan on `Team` with
`Limit: limit + 1`, then the `keyToId`-based mapping. -/
def fallbackScan (env : Env) (pid : String) (item : PhotoItem) (limit : Int) : List Hit :=
  mockHits env.keyToId env.rand pid (scanTeam env.store item.team (limit + 1))

/-- Real-path block of the first handler version: DynamoDB vector-table
lookup; when the vector is absent, a Qdrant scroll inside an inner
try/catch whose every continuation ends in a bare `return;` (the function
resolves to `undefined`); when the vector is present, the Qdrant search,
whose failure (thrown error or non-`'ok'` status, the latter rethrown as
`Error('Invalid response from Qdrant search')`) is caught locally and
replaced by the fallback scan, after which control falls through to the
filter stage and a 200. -/
def realBranch1 (env : Env) (pid : String) (item : PhotoItem) (limit : Int)
    (threshold : ℚ) (pre : List Call) : HandlerOut :=
  match env.vectorOf pid with
  | none =>
    match env.scroll with
    | .err =>
      ⟨none, true, pre ++ [.getVector pid, .scroll pid, .scan item.team (limit + 1)]⟩
    | .ok points =>
      match points.head? with
      | none =>
        ⟨none, true, pre ++ [.getVector pid, .scroll pid, .scan item.team (limit + 1)]⟩
      | some pt =>
        match pt.vector with
        | none =>
          ⟨none, true, pre ++ [.getVector pid, .scroll pid, .scan item.team (limit + 1)]⟩
        | some qv =>
          if qv.isEmpty then
            ⟨none, true, pre ++ [.getVector pid, .scroll pid, .scan item.team (limit + 1)]⟩
          else
            match env.searchQ qv (limit + 5) threshold with
            | .respOk _ =>
              ⟨none, false,
               pre ++ [.getVector pid, .scroll pid, .search qv (limit + 5) threshold]⟩
            | .respBad =>
              ⟨none, true,
               pre ++ [.getVector pid, .scroll pid, .search qv (limit + 5) threshold,
                       .scan item.team (limit + 1)]⟩
            | .throwErr =>
              ⟨none, true,
               pre ++ [.getVector pid, .scroll pid, .search qv (limit + 5) threshold,
                       .scan item.team (limit + 1)]⟩
  | some v =>
    match env.searchQ v (limit + 5) threshold with
    | .respOk hits =>
      ⟨some ⟨200, .photos (filterFormat env.s3Base pid limit hits)⟩, false,
       pre ++ [.getVector pid, .search v (limit + 5) threshold]⟩
    | .respBad =>
      ⟨some ⟨200, .photos (filterFormat env.s3Base pid limit (fallbackScan env pid item limit))⟩,
       true,
       pre ++ [.getVector pid, .search v (limit + 5) threshold, .scan item.team (limit + 1)]⟩
    | .throwErr =>
      ⟨some ⟨200, .photos (filterFormat env.s3Base pid limit (fallbackScan env pid item limit))⟩,
       true,
       pre ++ [.getVector pid, .search v (limit + 5) threshold, .scan item.team (limit + 1)]⟩

/-- First handler version.  `mode0` is the value of the module-level
`useMockMode` variable at invocation start; this version never resets it,
so a `true` left by a previous invocation makes the handler skip the
health check and run the mock block directly. -/
def handler1 (env : Env) (mode0 : Bool) (q : Query) : HandlerOut :=
  match q.id with
  | none => ⟨some resp400, mode0, []⟩
  | some pid =>
    if pid = "" then ⟨some resp400, mode0, []⟩
    else
      match lookupItem env.store pid with
      | none => ⟨some resp404, mode0, [.getItem pid]⟩
      | some item =>
        if mode0 then
          mockBranch env pid item (parseLimit q.limit) [.getItem pid]
        else
          match env.health with
          | .connError =>
            mockBranch env pid item (parseLimit q.limit) [.getItem pid, .health]
          | .collections ns =>
            if ns.contains env.collectionName then
              realBranch1 env pid item (parseLimit q.limit) (parseThreshold q.threshold)
                [.getItem pid, .health]
            else
              mockBranch env pid item (parseLimit q.limit) [.getItem pid, .health]

/-- Real-path block of the second handler version: no DynamoDB vector
table.  The Qdrant scroll runs directly inside the big try, so a thrown
scroll error reaches the catch at the end of the block, which runs the
fallback scan and falls through to the filter stage (→ 200 with mock
results).  A scroll that succeeds but carries no point, or a point without
a vector, runs the fallback scan and then hits a bare `return;`
(`undefined`).  A present vector (even an empty array, which is truthy in
JS) goes to the search; search failure is caught by the same catch and
replaced by the fallback scan with fall-through to the filter. -/
def realBranch2 (env : Env) (pid : String) (item : PhotoItem) (limit : Int)
    (threshold : ℚ) (pre : List Call) : HandlerOut :=
  match env.scroll with
  | .err =>
    ⟨some ⟨200, .photos (filterFormat env.s3Base pid limit (fallbackScan env pid item limit))⟩,
     true, pre ++ [.scroll pid, .scan item.team (limit + 1)]⟩
  | .ok points =>
    match points.head? with
    | none =>
      ⟨none, true, pre ++ [.scroll pid, .scan item.team (limit + 1)]⟩
    | some pt =>
      match pt.vector with
      | none =>
        ⟨none, true, pre ++ [.scroll pid, .scan item.team (limit + 1)]⟩
      | some v =>
        match env.searchQ v (limit + 5) threshold with
        | .respOk hits =>
          ⟨some ⟨200, .photos (filterFormat env.s3Base pid limit hits)⟩, false,
           pre ++ [.scroll pid, .search v (limit + 5) threshold]⟩
        | .respBad =>
          ⟨some ⟨200, .photos (filterFormat env.s3Base pid limit (fallbackScan env pid item limit))⟩,
           true,
           pre ++ [.scroll pid, .search v (limit + 5) threshold, .scan item.team (limit + 1)]⟩
        | .throwErr =>
          ⟨some ⟨200, .photos (filterFormat env.s3Base pid limit (fallbackScan env pid item limit))⟩,
           true,
           pre ++ [.scroll pid, .search v (limit + 5) threshold, .scan item.team (limit + 1)]⟩

/-- Second handler version.  The module-level flag is reset to the
constant `MOCK_MODE` (false) before the mode decision
(`useMockMode = MOCK_MODE`), so `mode0` can influence neither the path
taken nor the response; it survives only in the module state reported
after an early 400/404 return, which happens before the reset line. -/
def handler2 (env : Env) (mode0 : Bool) (q : Query) : HandlerOut :=
  match q.id with
  | none => ⟨some resp400, mode0, []⟩
  | some pid =>
    if pid = "" then ⟨some resp400, mode0, []⟩
    else
      match lookupItem env.store pid with
      | none => ⟨some resp404, mode0, [.getItem pid]⟩
      | some item =>
        match env.health with
        | .connError =>
          mockBranch env pid item (parseLimit q.limit) [.getItem pid, .health]
        | .collections ns =>
          if ns.contains env.collectionName then
            realBranch2 env pid item (parseLimit q.limit) (parseThreshold q.threshold)
              [.getItem pid, .health]
          else
            mockBranch env pid item (parseLimit q.limit) [.getItem pid, .health]

/-! Concrete fixtures used by the closed theorems below. -/

/-- Query photo record: key `p1`, team `Red`. -/
def pA : PhotoItem := ⟨"p1", "Red", some "2024", some "Ev", none, none⟩

/-- Second record with the same team as `pA`. -/
def pB : PhotoItem := ⟨"p2", "Red", none, none, none, none⟩

/-- Record with a different team. -/
def pC : PhotoItem := ⟨"p3", "Blue", none, none, none, none⟩

/-- Standard request: `id=p1`, no `limit`, no `threshold`. -/
def qStd : Query := ⟨some "p1", .absent, .absent⟩

/-- Baseline healthy environment: three-record store, no vector in the
DynamoDB vector table, collection present, empty scroll, search responding
with a non-`'ok'` body, fixed random source. -/
def baseEnv : Env :=
  ⟨[pA, pB, pC], fun _ => none, .collections ["photos"], "photos", .ok [],
   fun _ _ _ => .respBad, fun _ => 1 / 3, fun _ => 0, "https://b.s3.eu-west-1.amazonaws.com"⟩

/-- A raw hit whose payload key is `p2`. -/
def hitB : Hit := ⟨7, some (9 / 10), some (toPayload pB)⟩

/-- A raw hit whose payload key equals the query key `p1`. -/
def hitA : Hit := ⟨3, some (99 / 100), some (toPayload pA)⟩

/-- Environment in which the Qdrant health check throws a connection
error. -/
def envDown : Env := { baseEnv with health := .connError }

/-- Environment in which the vector is in the DynamoDB vector table and
the search succeeds, returning a self-hit followed by a genuine hit. -/
def envGood : Env :=
  { baseEnv with
    vectorOf := fun k => if k = "p1" then some [1, 0] else none,
    searchQ := fun _ _ _ => .respOk [hitA, hitB] }

/-- Environment in which the vector table misses, the Qdrant scroll
succeeds with a vector-carrying point, and the search succeeds. -/
def envScrollOk : Env :=
  { baseEnv with
    scroll := .ok [⟨11, some [1, 0]⟩],
    searchQ := fun _ _ _ => .respOk [hitB] }

/-- Environment in which the vector is present and the search succeeds
with zero hits at or above the threshold. -/
def envEmptySearch : Env :=
  { baseEnv with
    vectorOf := fun k => if k = "p1" then some [1, 0] else none,
    searchQ := fun _ _ _ => .respOk [] }

/-- Environment in which the vector is present and the search throws. -/
def envSearchThrow : Env :=
  { baseEnv with
    vectorOf := fun k => if k = "p1" then some [1, 0] else none,
    searchQ := fun _ _ _ => .throwErr }

/-! Supporting lemmas about the filter/format stage, the fallback scan
and the handler's control flow. -/

/-- An accepted hit has a nonempty key different from the query key. -/
lemma acceptHit_spec {pid : String} {h : Hit} (hacc : acceptHit pid h = true) :
    hitKey h ≠ "" ∧ hitKey h ≠ pid := by
  simp only [acceptHit, Bool.not_eq_true', Bool.or_eq_false_iff, beq_eq_false_iff_ne,
    ne_eq] at hacc
  exact hacc

/-- Every element pushed by the format loop has a nonempty id different
from the query key. -/
lemma mem_filterFormatAux {s3 pid : String} {limit : Int} :
    ∀ (c : Nat) (hits : List Hit) (f : Formatted),
      f ∈ filterFormatAux s3 pid limit c hits → f.id ≠ "" ∧ f.id ≠ pid := by
  intro c hits
  induction hits generalizing c with
  | nil => intro f hf; simp [filterFormatAux] at hf
  | cons h rest ih =>
    intro f hf
    simp only [filterFormatAux] at hf
    by_cases hacc : acceptHit pid h
    · rw [if_pos hacc] at hf
      by_cases hl : limit ≤ (c : Int) + 1
      · rw [if_pos hl] at hf
        simp only [List.mem_singleton] at hf
        subst hf
        exact acceptHit_spec hacc
      · rw [if_neg hl] at hf
        rcases List.mem_cons.mp hf with hf | hf
        · subst hf; exact acceptHit_spec hacc
        · exact ih (c + 1) f hf
    · rw [if_neg hacc] at hf
      exact ih c f hf

/-- With a positive remaining budget, the format loop is exactly a
truncated map over the accepted hits, in iteration order. -/
lemma filterFormatAux_eq_take {s3 pid : String} {limit : Int} :
    ∀ (hits : List Hit) (c : Nat), (c : Int) < limit →
      filterFormatAux s3 pid limit c hits =
        ((hits.filter (acceptHit pid)).map (formatHit s3)).take (limit - c).toNat := by
  intro hits
  induction hits with
  | nil => intro c _; simp [filterFormatAux]
  | cons h rest ih =>
    intro c hc
    simp only [filterFormatAux]
    by_cases hacc : acceptHit pid h
    · rw [if_pos hacc, List.filter_cons_of_pos hacc, List.map_cons]
      by_cases hl : limit ≤ (c : Int) + 1
      · rw [if_pos hl]
        have h1 : (limit - c).toNat = 1 := by omega
        rw [h1, List.take_succ_cons, List.take_zero]
      · rw [if_neg hl, ih (c + 1) (by push_cast; omega)]
        have h1 : (limit - c).toNat = (limit - ((c : Nat) + 1 : Nat)).toNat + 1 := by
          push_cast; omega
        rw [h1, List.take_succ_cons]
    · rw [if_neg hacc, List.filter_cons_of_neg hacc, ih c hc]

/-- The filter/format stage truncates the mapped accepted hits at the
requested limit (for positive limits). -/
lemma filterFormat_eq_take {s3 pid : String} {limit : Int} (hits : List Hit)
    (hl : 1 ≤ limit) :
    filterFormat s3 pid limit hits =
      ((hits.filter (acceptHit pid)).map (formatHit s3)).take limit.toNat := by
  have h0 := @filterFormatAux_eq_take s3 pid limit hits 0 (by omega)
  simpa using h0

/-- Every record produced by the team scan carries the requested team. -/
lemma scanTeam_team {store : List PhotoItem} {team : String} {lim : Int} :
    ∀ it ∈ scanTeam store team lim, it.team = team := by
  intro it hit
  have := List.of_mem_filter hit
  simpa [beq_iff_eq] using this

/-- The team scan examines at most `lim` records, so it returns at most
`lim` records. -/
lemma scanTeam_length {store : List PhotoItem} {team : String} {lim : Int} :
    (scanTeam store team lim).length ≤ lim.toNat := by
  calc (scanTeam store team lim).length
      ≤ (store.take lim.toNat).length := List.length_filter_le _ _
    _ ≤ lim.toNat := by simp [List.length_take]

/-- Shape of every element of the fallback mapping: payload taken from a
scanned record and score `r * 0.5 + 0.5` for some drawn random `r`. -/
lemma mem_mockHitsFrom {ktid : String → Nat} {rand : Nat → ℚ} {pid : String} :
    ∀ (i : Nat) (items : List PhotoItem) (h : Hit),
      h ∈ mockHitsFrom ktid rand pid i items →
      ∃ (j : Nat) (it : PhotoItem), it ∈ items ∧
        h.score = some (rand j * (1 / 2) + 1 / 2) ∧ h.payload = some (toPayload it) := by
  intro i items
  induction items generalizing i with
  | nil => intro h hh; simp [mockHitsFrom] at hh
  | cons it rest ih =>
    intro h hh
    simp only [mockHitsFrom, List.mem_cons] at hh
    rcases hh with hh | hh
    · subst hh
      exact ⟨i, it, List.mem_cons_self _ _, rfl, rfl⟩
    · obtain ⟨j, it2, hmem, hs, hp⟩ := ih (i + 1) h hh
      exact ⟨j, it2, List.mem_cons_of_mem _ hmem, hs, hp⟩

/-- The fallback mapping is length-preserving. -/
lemma mockHitsFrom_length {ktid : String → Nat} {rand : Nat → ℚ} {pid : String} :
    ∀ (i : Nat) (items : List PhotoItem),
      (mockHitsFrom ktid rand pid i items).length = items.length := by
  intro i items
  induction items generalizing i with
  | nil => simp [mockHitsFrom]
  | cons it rest ih => simp [mockHitsFrom, ih]

/-- Any array body produced by the mock branch comes out of the
filter/format stage. -/
lemma mockBranch_photos {env : Env} {pid : String} {item : PhotoItem} {limit : Int}
    {pre : List Call} {r : Response} {l : List Formatted}
    (hr : (mockBranch env pid item limit pre).resp = some r)
    (hb : r.body = .photos l) :
    ∃ hits, l = filterFormat env.s3Base pid limit hits := by
  unfold mockBranch at hr
  split at hr
  · simp only [Option.some.injEq] at hr
    subst hr
    simp only at hb
    cases hb
    exact ⟨[], rfl⟩
  · simp only [Option.some.injEq] at hr
    subst hr
    simp [resp500] at hb

/-- Any array body produced by the first version's real branch comes out
of the filter/format stage. -/
lemma realBranch1_photos {env : Env} {pid : String} {item : PhotoItem} {limit : Int}
    {threshold : ℚ} {pre : List Call} {r : Response} {l : List Formatted}
    (hr : (realBranch1 env pid item limit threshold pre).resp = some r)
    (hb : r.body = .photos l) :
    ∃ hits, l = filterFormat env.s3Base pid limit hits := by
  unfold realBranch1 at hr
  rcases hv : env.vectorOf pid with _ | v
  · simp only [hv] at hr
    exfalso
    rcases hs : env.scroll with _ | points
    · simp only [hs] at hr; simp at hr
    · simp only [hs] at hr
      rcases hh : points.head? with _ | pt
      · simp only [hh] at hr; simp at hr
      · simp only [hh] at hr
        rcases hpv : pt.vector with _ | qv
        · simp only [hpv] at hr; simp at hr
        · simp only [hpv] at hr
          by_cases he : qv.isEmpty
          · rw [if_pos he] at hr; simp at hr
          · rw [if_neg he] at hr
            rcases hsq : env.searchQ qv (limit + 5) threshold with _ | _ | hits <;>
              simp only [hsq] at hr <;> simp at hr
  · simp only [hv] at hr
    rcases hsq : env.searchQ v (limit + 5) threshold with _ | _ | hits <;>
      simp only [hsq, Option.some.injEq] at hr <;> subst hr <;>
      simp only at hb <;> cases hb
    · exact ⟨fallbackScan env pid item limit, rfl⟩
    · exact ⟨fallbackScan env pid item limit, rfl⟩
    · exact ⟨hits, rfl⟩

/-- Any array body produced by the first handler version comes out of the
filter/format stage applied to the query key and the parsed limit. -/
lemma handler1_photos {env : Env} {m : Bool} {q : Query} {r : Response}
    {l : List Formatted}
    (hr : (handler1 env m q).resp = some r) (hb : r.body = .photos l) :
    ∃ pid hits, q.id = some pid ∧
      l = filterFormat env.s3Base pid (parseLimit q.limit) hits := by
  unfold handler1 at hr
  rcases hq : q.id with _ | pid
  · simp only [hq, Option.some.injEq] at hr
    subst hr
    simp [resp400] at hb
  · simp only [hq] at hr
    by_cases hpid : pid = ""
    · rw [if_pos hpid] at hr
      simp only [Option.some.injEq] at hr
      subst hr
      simp [resp400] at hb
    · rw [if_neg hpid] at hr
      rcases hli : lookupItem env.store pid with _ | item
      · simp only [hli, Option.some.injEq] at hr
        subst hr
        simp [resp404] at hb
      · simp only [hli] at hr
        cases m
        · simp only [Bool.false_eq_true, if_false] at hr
          rcases hh : env.health with _ | ns
          · simp only [hh] at hr
            exact ⟨pid, (mockBranch_photos hr hb).imp (fun hits h2 => ⟨rfl, h2⟩)⟩
          · simp only [hh] at hr
            by_cases hc : ns.contains env.collectionName
            · rw [if_pos hc] at hr
              exact ⟨pid, (realBranch1_photos hr hb).imp (fun hits h2 => ⟨rfl, h2⟩)⟩
            · rw [if_neg hc] at hr
              exact ⟨pid, (mockBranch_photos hr hb).imp (fun hits h2 => ⟨rfl, h2⟩)⟩
        · simp only [if_true] at hr
          exact ⟨pid, (mockBranch_photos hr hb).imp (fun hits h2 => ⟨rfl, h2⟩)⟩

end PhotoViewer

namespace PhotoViewer

/-! Claim theorems. -/

/-- C1.  The claim says a vector-subsystem fault can never yield a 500 for
an id present in the store.  The code refutes it: with the photo present
and the Qdrant health check throwing a connection error, the handler
enters the mock block, whose map callback evaluates the undeclared
`pointId`; the resulting `ReferenceError` escapes to the outer catch, and
the response is a 500 caused purely by vector-service unavailability. -/
theorem vector_unavailability_reaches_500 :
    handler1 envDown false qStd =
      ⟨some (resp500 refErrPointId), true,
       [.getItem "p1", .health, .scan "Red" 21]⟩ := by
  decide

/-- C2.  The claim says every request that passes validation and photo
lookup terminates in a 200 with a JSON array.  The code refutes it: with
the photo present, the collection healthy, the vector absent from the
vector table but found via the Qdrant scroll, and the search succeeding,
the first handler version hits the bare `return;` after storing the
search results and resolves to `undefined` — no response object at all. -/
theorem successful_search_can_return_undefined :
    (handler1 envScrollOk false qStd).resp = none ∧
    lookupItem envScrollOk.store "p1" = some pA ∧
    envScrollOk.searchQ [1, 0] 25 (3 / 4) = .respOk [hitB] := by
  refine ⟨by decide, by decide, rfl⟩

/-- C3.  The claim says the fallback decision is scoped per request, so a
request's outcome is independent of prior invocations.  The first handler
version refutes it: one invocation against a downed Qdrant leaves the
module-level `useMockMode` true, and a later invocation with identical
input against a fully healthy environment then takes the mock path (and
here a 500) instead of the vector path it takes from a fresh module.  The
second version resets the flag per request, so its response and calls are
independent of the inherited module state. -/
theorem mode_flag_leaks_across_invocations :
    ((handler1 envDown false qStd).mode = true ∧
     (handler1 envGood true qStd).resp ≠ (handler1 envGood false qStd).resp) ∧
    (∀ (env : Env) (m m' : Bool) (q : Query),
      (handler2 env m q).resp = (handler2 env m' q).resp ∧
      (handler2 env m q).calls = (handler2 env m' q).calls) := by
  refine ⟨⟨by decide, by decide⟩, ?_⟩
  intro env m m' q
  unfold handler2
  rcases q.id with _ | pid
  · exact ⟨rfl, rfl⟩
  · dsimp only
    by_cases hpid : pid = ""
    · rw [if_pos hpid, if_pos hpid]
      exact ⟨rfl, rfl⟩
    · rw [if_neg hpid, if_neg hpid]
      rcases lookupItem env.store pid with _ | item
      · exact ⟨rfl, rfl⟩
      · exact ⟨rfl, rfl⟩

/-- C4.  Whenever the first handler version answers with an array body,
no element's id equals the query key: every 200 array is produced by the
filter/format stage, which drops hits whose resolved key is empty or
equals the query key. -/
theorem query_key_never_in_output
    (env : Env) (m : Bool) (q : Query) (pid : String) (r : Response)
    (l : List Formatted)
    (hid : q.id = some pid)
    (hr : (handler1 env m q).resp = some r) (hb : r.body = .photos l) :
    ∀ f ∈ l, f.id ≠ pid := by
  obtain ⟨pid2, hits, hid2, hl⟩ := handler1_photos hr hb
  rw [hid] at hid2
  injection hid2 with h2
  subst h2
  intro f hf
  rw [hl] at hf
  exact (mem_filterFormatAux 0 hits f hf).2

/-- C4 witness: the hit for `p2` returned on the healthy vector path does
not carry the query key `p1`. -/
theorem query_key_never_in_output_witness :
    (formatHit envGood.s3Base hitB).id ≠ "p1" := by
  refine query_key_never_in_output envGood false qStd "p1"
    ⟨200, .photos (filterFormat envGood.s3Base "p1" 20 [hitA, hitB])⟩
    (filterFormat envGood.s3Base "p1" 20 [hitA, hitB]) rfl rfl rfl
    (formatHit envGood.s3Base hitB)
    (show formatHit envGood.s3Base hitB ∈ [formatHit envGood.s3Base hitB] from
      List.mem_singleton.mpr rfl)

end PhotoViewer

namespace PhotoViewer

/-- Routing lemma: with a fresh module flag, a resolving photo, a healthy
health check and the collection present, the first handler version runs
its real branch. -/
lemma handler1_real (env : Env) (q : Query) (pid : String) (item : PhotoItem)
    (ns : List String)
    (hid : q.id = some pid) (hne : pid ≠ "")
    (hitem : lookupItem env.store pid = some item)
    (hh : env.health = .collections ns)
    (hcoll : ns.contains env.collectionName = true) :
    handler1 env false q =
      realBranch1 env pid item (parseLimit q.limit) (parseThreshold q.threshold)
        [.getItem pid, .health] := by
  unfold handler1
  simp only [hid, hitem, hh, hcoll, if_neg hne, Bool.false_eq_true, if_false, if_true]

/-- C5.  The filter/format stage is exactly a truncation-at-`limit` of the
accepted raw hits mapped in iteration order (no re-sorting), and therefore
every array body the first handler version returns has at most `limit`
elements (for a requested limit ≥ 1, the default 20 included). -/
theorem output_truncated_at_limit :
    (∀ (s3 pid : String) (L : Int) (hits : List Hit), 1 ≤ L →
        filterFormat s3 pid L hits =
          ((hits.filter (acceptHit pid)).map (formatHit s3)).take L.toNat) ∧
    (∀ (env : Env) (m : Bool) (q : Query) (r : Response) (l : List Formatted),
        1 ≤ parseLimit q.limit →
        (handler1 env m q).resp = some r → r.body = .photos l →
        l.length ≤ (parseLimit q.limit).toNat) := by
  constructor
  · intro s3 pid L hits hL
    exact filterFormat_eq_take hits hL
  · intro env m q r l hL hr hb
    obtain ⟨pid, hits, _, hl⟩ := handler1_photos hr hb
    rw [hl, filterFormat_eq_take hits hL]
    simp [List.length_take_le]

/-- C5 witness: truncation shape on a concrete list, and the concrete
healthy-path output respects the default limit 20. -/
theorem output_truncated_at_limit_witness :
    (filterFormat "s" "p1" 2 [hitB] =
      (([hitB].filter (acceptHit "p1")).map (formatHit "s")).take (2 : Int).toNat) ∧
    (filterFormat envGood.s3Base "p1" 20 [hitA, hitB]).length ≤
      (parseLimit qStd.limit).toNat := by
  constructor
  · exact output_truncated_at_limit.1 "s" "p1" 2 [hitB] (by decide)
  · exact output_truncated_at_limit.2 envGood false qStd
      ⟨200, .photos (filterFormat envGood.s3Base "p1" 20 [hitA, hitB])⟩
      (filterFormat envGood.s3Base "p1" 20 [hitA, hitB]) (by decide) rfl rfl

/-- C6.  A successful vector search that returns zero hits at or above the
threshold does not trigger the fallback: the first handler version
answers 200 with an empty array, leaves the mock flag false, and performs
no team scan. -/
theorem empty_successful_search_no_fallback
    (env : Env) (q : Query) (pid : String) (item : PhotoItem) (ns : List String)
    (v : List ℚ)
    (hid : q.id = some pid) (hne : pid ≠ "")
    (hitem : lookupItem env.store pid = some item)
    (hh : env.health = .collections ns)
    (hcoll : ns.contains env.collectionName = true)
    (hvec : env.vectorOf pid = some v)
    (hsearch : env.searchQ v (parseLimit q.limit + 5) (parseThreshold q.threshold) =
      .respOk []) :
    handler1 env false q =
      ⟨some ⟨200, .photos []⟩, false,
       [.getItem pid, .health, .getVector pid,
        .search v (parseLimit q.limit + 5) (parseThreshold q.threshold)]⟩ := by
  rw [handler1_real env q pid item ns hid hne hitem hh hcoll]
  unfold realBranch1
  simp only [hvec, hsearch]
  rfl

/-- C6 witness: concrete empty authoritative search. -/
theorem empty_successful_search_no_fallback_witness :
    handler1 envEmptySearch false qStd =
      ⟨some ⟨200, .photos []⟩, false,
       [.getItem "p1", .health, .getVector "p1", .search [1, 0] 25 (3 / 4)]⟩ :=
  empty_successful_search_no_fallback envEmptySearch qStd "p1" pA ["photos"] [1, 0]
    rfl (by decide) rfl rfl rfl rfl rfl

/-- Boolean test: the hit's payload carries exactly the given team. -/
def teamMatches (t : String) (h : Hit) : Bool :=
  (h.payload.getD emptyPayload).team == some t

/-- C7.  On the (working) fallback path — vector present, search throwing
— the raw candidates are the fallback scan: every candidate's payload
team equals the query photo's team, and at most `limit + 1` records come
back from the scan. -/
theorem fallback_hits_share_query_team
    (env : Env) (q : Query) (pid : String) (item : PhotoItem) (ns : List String)
    (v : List ℚ)
    (hid : q.id = some pid) (hne : pid ≠ "")
    (hitem : lookupItem env.store pid = some item)
    (hh : env.health = .collections ns)
    (hcoll : ns.contains env.collectionName = true)
    (hvec : env.vectorOf pid = some v)
    (hsearch : env.searchQ v (parseLimit q.limit + 5) (parseThreshold q.threshold) =
      .throwErr) :
    (handler1 env false q).resp =
      some ⟨200, .photos (filterFormat env.s3Base pid (parseLimit q.limit)
        (fallbackScan env pid item (parseLimit q.limit)))⟩ ∧
    (fallbackScan env pid item (parseLimit q.limit)).all (teamMatches item.team) = true ∧
    (fallbackScan env pid item (parseLimit q.limit)).length ≤
      (parseLimit q.limit + 1).toNat := by
  refine ⟨?_, ?_, ?_⟩
  · rw [handler1_real env q pid item ns hid hne hitem hh hcoll]
    unfold realBranch1
    simp only [hvec, hsearch]
  · rw [List.all_eq_true]
    intro h hm
    obtain ⟨j, it, hmem, _, hp⟩ := mem_mockHitsFrom 0 _ h hm
    have hteam := scanTeam_team it hmem
    simp [teamMatches, hp, toPayload, hteam]
  · unfold fallbackScan mockHits
    rw [mockHitsFrom_length]
    exact scanTeam_length

/-- C7 witness: concrete throwing search over the three-record store. -/
theorem fallback_hits_share_query_team_witness :
    (handler1 envSearchThrow false qStd).resp =
      some ⟨200, .photos (filterFormat envSearchThrow.s3Base "p1" (parseLimit qStd.limit)
        (fallbackScan envSearchThrow "p1" pA (parseLimit qStd.limit)))⟩ ∧
    (fallbackScan envSearchThrow "p1" pA (parseLimit qStd.limit)).all
      (teamMatches pA.team) = true ∧
    (fallbackScan envSearchThrow "p1" pA (parseLimit qStd.limit)).length ≤
      (parseLimit qStd.limit + 1).toNat :=
  fallback_hits_share_query_team envSearchThrow qStd "p1" pA ["photos"] [1, 0]
    rfl (by decide) rfl rfl rfl rfl rfl

end PhotoViewer

namespace PhotoViewer

/-- C8.  A request without the `id` parameter receives the 400 response
with the exact message and triggers no outbound call at all; a request
whose id does not resolve in the item store receives the 404 response
with the exact message after the single item-store lookup. -/
theorem missing_id_and_unknown_photo :
    (∀ (env : Env) (m : Bool) (lraw : RawNum) (traw : RawQ),
        handler1 env m ⟨none, lraw, traw⟩ = ⟨some resp400, m, []⟩) ∧
    (∀ (env : Env) (m : Bool) (q : Query) (pid : String),
        q.id = some pid → pid ≠ "" → lookupItem env.store pid = none →
        handler1 env m q = ⟨some resp404, m, [.getItem pid]⟩) := by
  constructor
  · intro env m lraw traw
    rfl
  · intro env m q pid hid hne hnone
    unfold handler1
    simp only [hid, hnone, if_neg hne]

/-- Environment whose item store is empty. -/
def envNoStore : Env := { baseEnv with store := [] }

/-- C8 witness: concrete 400 and 404 requests. -/
theorem missing_id_and_unknown_photo_witness :
    handler1 baseEnv false ⟨none, .absent, .absent⟩ = ⟨some resp400, false, []⟩ ∧
    handler1 envNoStore false qStd = ⟨some resp404, false, [.getItem "p1"]⟩ :=
  ⟨missing_id_and_unknown_photo.1 baseEnv false .absent .absent,
   missing_id_and_unknown_photo.2 envNoStore false qStd "p1" rfl (by decide) rfl⟩

/-- Boolean test: the hit carries a score inside [0.5, 1.0). -/
def scoreInRange (h : Hit) : Bool :=
  match h.score with
  | some s => decide ((1 : ℚ) / 2 ≤ s ∧ s < 1)
  | none => false

/-- C9.  Every fallback hit's synthetic score `r * 0.5 + 0.5` lies in
[0.5, 1.0) as long as the random source stays in [0, 1); and a hit with
an absent score is formatted with similarity 0 (`hit.score || 0`). -/
theorem fallback_scores_in_range :
    (∀ (ktid : String → Nat) (rand : Nat → ℚ) (pid : String)
        (items : List PhotoItem),
        (∀ i, 0 ≤ rand i ∧ rand i < 1) →
        (mockHits ktid rand pid items).all scoreInRange = true) ∧
    (∀ (s3 : String) (h : Hit), h.score = none →
        (formatHit s3 h).similarity = 0) := by
  constructor
  · intro ktid rand pid items hrand
    rw [List.all_eq_true]
    intro h hm
    obtain ⟨j, it, _, hs, _⟩ := mem_mockHitsFrom 0 items h hm
    unfold scoreInRange
    rw [hs]
    rw [decide_eq_true_iff]
    obtain ⟨h0, h1⟩ := hrand j
    constructor
    · have := mul_nonneg h0 (by norm_num : (0 : ℚ) ≤ 1 / 2)
      linarith
    · have := mul_lt_mul_of_pos_right h1 (by norm_num : (0 : ℚ) < 1 / 2)
      linarith
  · intro s3 h hs
    simp [formatHit, hs]

/-- C9 witness: one concrete fallback hit list, and one concrete hit
without a score. -/
theorem fallback_scores_in_range_witness :
    (mockHits (fun _ => 0) (fun _ => 1 / 3) "q" [pA]).all scoreInRange = true ∧
    (formatHit "s" ⟨0, none, none⟩).similarity = 0 :=
  ⟨fallback_scores_in_range.1 (fun _ => 0) (fun _ => 1 / 3) "q" [pA]
    (fun _ => ⟨by norm_num, by norm_num⟩),
   fallback_scores_in_range.2 "s" ⟨0, none, none⟩ rfl⟩

/-- C10.  `parseInt(limit) || 20` maps an absent, unparsable or zero limit
to the default 20; `parseFloat(threshold) || 0.75` likewise maps absent,
unparsable or zero thresholds to 0.75; a strictly negative limit is kept
unchanged, and on the vector path it propagates unclamped into the
downstream search (`limit + 5`) and fallback-scan (`limit + 1`) calls. -/
theorem falsy_defaults_and_negative_limit :
    parseLimit .absent = 20 ∧ parseLimit .unparsable = 20 ∧
    parseLimit (.val 0) = 20 ∧
    parseThreshold .absent = 3 / 4 ∧ parseThreshold .unparsable = 3 / 4 ∧
    parseThreshold (.val 0) = 3 / 4 ∧
    (∀ n : Int, n < 0 → parseLimit (.val n) = n) ∧
    (∀ (env : Env) (q : Query) (pid : String) (item : PhotoItem)
        (ns : List String) (v : List ℚ) (n : Int),
        q.id = some pid → pid ≠ "" → q.limit = .val n → n < 0 →
        lookupItem env.store pid = some item →
        env.health = .collections ns → ns.contains env.collectionName = true →
        env.vectorOf pid = some v →
        env.searchQ v (n + 5) (parseThreshold q.threshold) = .throwErr →
        Call.search v (n + 5) (parseThreshold q.threshold) ∈
          (handler1 env false q).calls ∧
        Call.scan item.team (n + 1) ∈ (handler1 env false q).calls) := by
  refine ⟨rfl, rfl, rfl, rfl, rfl, rfl, ?_, ?_⟩
  · intro n hn
    simp only [parseLimit]
    rw [if_neg (by omega)]
  · intro env q pid item ns v n hid hne hql hn hitem hh hcoll hvec hsearch
    have hpl : parseLimit q.limit = n := by
      rw [hql]
      simp only [parseLimit]
      rw [if_neg (by omega)]
    rw [handler1_real env q pid item ns hid hne hitem hh hcoll]
    unfold realBranch1
    rw [hpl]
    simp only [hvec, hsearch]
    constructor
    · simp
    · simp

/-- Request with a strictly negative limit. -/
def qNeg : Query := ⟨some "p1", .val (-3), .absent⟩

/-- C10 witness: with `limit=-3` the downstream search receives `-3 + 5`
and the fallback scan receives `-3 + 1`. -/
theorem falsy_defaults_and_negative_limit_witness :
    Call.search [1, 0] (-3 + 5) (parseThreshold qNeg.threshold) ∈
      (handler1 envSearchThrow false qNeg).calls ∧
    Call.scan pA.team (-3 + 1) ∈ (handler1 envSearchThrow false qNeg).calls :=
  falsy_defaults_and_negative_limit.2.2.2.2.2.2.2 envSearchThrow qNeg "p1" pA
    ["photos"] [1, 0] (-3) rfl (by decide) rfl (by decide) rfl rfl rfl rfl rfl

end PhotoViewer
